import Mathlib

/-!
Verification of the node-filter utility (filter_nodes.py).

The program fetches a text document, removes every line whose stripped,
lowercased form starts with one of the denied markers http=, https= or
socks5=, persists the remaining lines (skipping the write when the file
already holds the same content), and re-scans the persisted content as a
late verification step.

The embedding below models the string primitives the Python code relies on
(strip, lower, startswith, splitlines, join), the filter itself, the
persister, the verifier, and the top-level pipeline with its exit code.
-/

/-- Characters treated as whitespace by the strip method of Python strings. -/
def isPySpace (c : Char) : Bool :=
  c == ' ' || c == '\t' || c == '\n' || c == '\r' || c == '\x0b' || c == '\x0c' ||
  c == '\x1c' || c == '\x1d' || c == '\x1e' || c == '\x1f' || c == '\x85' ||
  c == '\xa0' || c == ' ' ||
  (Nat.ble 0x2000 c.toNat && Nat.ble c.toNat 0x200a) ||
  c == ' ' || c == ' ' || c == ' ' || c == ' ' || c == '　'

/-- Embedding of line.strip(): remove leading and trailing whitespace. -/
def pyStrip (s : String) : String :=
  ⟨((s.data.dropWhile isPySpace).reverse.dropWhile isPySpace).reverse⟩

/-- Embedding of line.lower() for the characters that matter here (ASCII). -/
def pyLower (s : String) : String :=
  ⟨s.data.map Char.toLower⟩

/-- Embedding of s.startswith(p). -/
def startsWithStr (s p : String) : Bool :=
  List.isPrefixOf p.data s.data

/-- Characters at which splitlines breaks a Python string, apart from CRLF. -/
def isLineBreak (c : Char) : Bool :=
  c == '\n' || c == '\r' || c == '\x0b' || c == '\x0c' ||
  c == '\x1c' || c == '\x1d' || c == '\x1e' || c == '\x85' ||
  c == ' ' || c == ' '

/-- Worker for splitlines: a trailing break produces no extra empty line. -/
def splitlinesAux : List Char → List Char → List (List Char)
  | [], acc => [acc.reverse]
  | '\r' :: '\n' :: rest, acc =>
      if rest.isEmpty then [acc.reverse]
      else acc.reverse :: splitlinesAux rest []
  | c :: rest, acc =>
      if isLineBreak c then
        if rest.isEmpty then [acc.reverse]
        else acc.reverse :: splitlinesAux rest []
      else splitlinesAux rest (c :: acc)

/-- Embedding of content.splitlines(); the empty string yields no lines. -/
def splitlines (s : String) : List String :=
  if s = "" then [] else (splitlinesAux s.data []).map (fun cs => String.mk cs)

/-- Embedding of the newline join applied to the kept lines. -/
def joinLines (ls : List String) : String :=
  String.intercalate "\n" ls

/-- The deny list remove_protocols of filter_nodes. -/
def remove_protocols : List String :=
  ["http=", "https=", "socks5="]

/-- A line whose stripped form is empty, kept unchanged by the filter. -/
def isBlankLine (line : String) : Bool :=
  pyStrip line == ""

/-- The removal test of filter_nodes: the stripped, lowercased line starts
with one of the denied markers. -/
def deniedLine (line : String) : Bool :=
  remove_protocols.any (fun protocol => startsWithStr (pyLower (pyStrip line)) protocol)

/-- The keep decision of the filter loop: blank lines stay, denied lines go,
everything else stays verbatim. -/
def keepLine (line : String) : Bool :=
  isBlankLine line || ! deniedLine line

/-- Embedding of the loop body of filter_nodes over the list of lines:
returns the kept lines in order together with removed_count. -/
def filterLines : List String → List String × Nat
  | [] => ([], 0)
  | line :: rest =>
    let r := filterLines rest
    if isBlankLine line then (line :: r.1, r.2)
    else if deniedLine line then (r.1, r.2 + 1)
    else (line :: r.1, r.2)

/-- Embedding of filter_nodes(content): None on falsy input, otherwise the
newline join of the kept lines. -/
def filter_nodes (content : String) : Option String :=
  if content = "" then none
  else some (joinLines (filterLines (splitlines content)).1)

/-- Embedding of save_result: compare the new content against the existing
file content (an absent file reads as the empty string), write only when
different, and report whether a write occurred. An I/O failure is caught
inside the function and surfaces only as a False return value, leaving the
file as it was. The second component is the file state after the call. -/
def save_result (content : String) (existing : Option String) (ioFail : Bool) :
    Bool × Option String :=
  if ioFail then (false, existing)
  else
    let existing_content := existing.getD ""
    if content = existing_content then (false, existing)
    else (true, some content)

/-- The per-line test of verify_result: a non-blank line whose stripped,
lowercased form starts with http=, https= or socks5=. -/
def verifyBad (line : String) : Bool :=
  let line_stripped := pyStrip line
  if line_stripped == "" then false
  else
    let line_lower := pyLower line_stripped
    startsWithStr line_lower "http=" ||
    startsWithStr line_lower "https=" ||
    startsWithStr line_lower "socks5="

/-- The bad_lines list collected by verify_result (original lines kept). -/
def badLines (content : String) : List String :=
  (splitlines content).filter verifyBad

/-- Embedding of verify_result: False when the file is absent or reading
fails, otherwise True exactly when no offending line remains. -/
def verify_result (file : Option String) (ioFail : Bool) : Bool :=
  if ioFail then false
  else
    match file with
    | none => false
    | some content => (badLines content).isEmpty

/-- The environment of one run: the fetch outcome (none models a fetch
exception), the prior content of the output file, and whether the save and
verify file operations raise. -/
structure RunInput where
  fetchResult : Option String
  existingFile : Option String
  saveFails : Bool
  verifyFails : Bool
deriving DecidableEq

/-- What one run produces: the truth value main returns (exit code 0 means
True), the output file after the run, and how far the pipeline got. -/
structure RunOutcome where
  exitZero : Bool
  finalFile : Option String
  saveRan : Bool
  verifyRan : Bool
  verifyPassed : Option Bool
deriving DecidableEq

/-- Embedding of main: fetch, filter, save, verify. A falsy fetch result or
a falsy filter result returns False early; the save return value is only
logged, and the verify return value is ignored. -/
def runMain (inp : RunInput) : RunOutcome :=
  match inp.fetchResult with
  | none => ⟨false, inp.existingFile, false, false, none⟩
  | some raw =>
    if raw = "" then ⟨false, inp.existingFile, false, false, none⟩
    else
      match filter_nodes raw with
      | none => ⟨false, inp.existingFile, false, false, none⟩
      | some filtered =>
        if filtered = "" then ⟨false, inp.existingFile, false, false, none⟩
        else
          let s := save_result filtered inp.existingFile inp.saveFails
          let v := verify_result s.2 inp.verifyFails
          ⟨true, s.2, true, true, some v⟩

/-- Document-level form of the no-denied-line hypothesis. -/
def noDeniedDoc (doc : List String) : Bool :=
  doc.all (fun line => ! deniedLine line)

/-- The filter keeps exactly the lines passing keepLine, in order. -/
theorem filterLines_fst_filter (doc : List String) :
    (filterLines doc).1 = doc.filter keepLine := by
  induction doc with
  | nil => rfl
  | cons line rest ih =>
    by_cases hb : isBlankLine line
    · simp [filterLines, keepLine, hb, List.filter_cons, ih]
    · by_cases hd : deniedLine line
      · simp [filterLines, keepLine, hb, hd, List.filter_cons, ih]
      · simp [filterLines, keepLine, hb, hd, List.filter_cons, ih]

/-- Every line of the filter output passes keepLine. -/
theorem filterLines_all_keep (doc : List String) :
    ((filterLines doc).1).all keepLine = true := by
  rw [filterLines_fst_filter]
  simp only [List.all_eq_true, List.mem_filter]
  intro line hline
  exact hline.2

/-- On a document whose every line passes keepLine the filter is the
identity and removes nothing. -/
theorem filterLines_of_all_keep (doc : List String)
    (h : doc.all keepLine = true) : filterLines doc = (doc, 0) := by
  induction doc with
  | nil => rfl
  | cons line rest ih =>
    rw [List.all_cons, Bool.and_eq_true] at h
    have hrest := ih h.2
    by_cases hb : isBlankLine line
    · simp [filterLines, hb, hrest]
    · have hd : deniedLine line = false := by
        have hk := h.1
        unfold keepLine at hk
        simpa [hb] using hk
      simp [filterLines, hb, hd, hrest]

/-- The verifier per-line test agrees with the filter predicates. -/
theorem verifyBad_eq (line : String) :
    verifyBad line = (! isBlankLine line && deniedLine line) := by
  unfold verifyBad deniedLine isBlankLine remove_protocols
  by_cases hb : pyStrip line == ""
  · simp [hb]
  · simp [hb, List.any_cons, List.any_nil, Bool.or_assoc]

/-- C1: for every input document, every line of the filter output either is
blank (empty after stripping) or does not case-insensitively start with
http=, https= or socks5=. -/
theorem filter_output_clean (doc : List String) :
    ((filterLines doc).1).all (fun line => isBlankLine line || ! deniedLine line) = true := by
  rw [filterLines_fst_filter]
  simp only [List.all_eq_true, List.mem_filter]
  intro line hline
  exact hline.2

/-- C3: the filter is idempotent; refiltering its output returns the same
document and removes zero further lines. -/
theorem filter_idempotent (doc : List String) :
    filterLines (filterLines doc).1 = ((filterLines doc).1, 0) :=
  filterLines_of_all_keep _ (filterLines_all_keep doc)

/-- C6: the filter preserves order; the output is the sublist of the input
made of exactly the kept lines, each reproduced verbatim. -/
theorem filter_order_preserving (doc : List String) :
    (filterLines doc).1 = doc.filter keepLine ∧
    List.Sublist (filterLines doc).1 doc :=
  ⟨filterLines_fst_filter doc,
    (filterLines_fst_filter doc) ▸ List.filter_sublist doc⟩

/-- C8: the concrete example document from the spec filters to the expected
output with removed count 2. -/
theorem filter_example :
    filterLines ["ss://abc", "http=1.2.3.4:8080", "", "VMess://xyz", "HTTPS=evil"] =
      (["ss://abc", "", "VMess://xyz"], 2) := by decide

/-- C10: every input line is either kept or counted as removed, exactly
once: input length equals removed count plus output length. -/
theorem filter_count_invariant (doc : List String) :
    doc.length = (filterLines doc).2 + ((filterLines doc).1).length := by
  induction doc with
  | nil => rfl
  | cons line rest ih =>
    by_cases hb : isBlankLine line
    · simp [filterLines, hb]
      omega
    · by_cases hd : deniedLine line
      · simp [filterLines, hb, hd]
        omega
      · simp [filterLines, hb, hd]
        omega

/-- C5: a document with no denied-prefix line filters to itself with zero
removals, and persisting its join writes exactly when the file did not
already hold that content. -/
theorem no_denied_identity (doc : List String) (existing : Option String)
    (h : noDeniedDoc doc = true) :
    filterLines doc = (doc, 0) ∧
    ((save_result (joinLines doc) existing false).1 = true ↔
      joinLines doc ≠ existing.getD "") := by
  constructor
  · apply filterLines_of_all_keep
    unfold noDeniedDoc at h
    simp only [List.all_eq_true] at h ⊢
    intro line hline
    unfold keepLine
    simp [h line hline]
  · unfold save_result
    by_cases he : joinLines doc = existing.getD ""
    · simp [he]
    · simp [he]

/-- Witness for C5 at a concrete clean document and prior file content. -/
theorem no_denied_identity_witness :
    noDeniedDoc ["ss://abc", "", "vmess://x"] = true ∧
    (filterLines ["ss://abc", "", "vmess://x"] = (["ss://abc", "", "vmess://x"], 0) ∧
      ((save_result (joinLines ["ss://abc", "", "vmess://x"]) (some "old") false).1 = true ↔
        joinLines ["ss://abc", "", "vmess://x"] ≠ (some "old").getD "")) :=
  ⟨by decide, no_denied_identity ["ss://abc", "", "vmess://x"] (some "old") (by decide)⟩

/-- C7 counterexample: when the file already holds the content, persisting
the same content twice performs zero writes, not exactly one. -/
theorem save_twice_zero_writes :
    (save_result "ss://a" (some "ss://a") false).1 = false ∧
    (save_result "ss://a" ((save_result "ss://a" (some "ss://a") false).2) false).1 = false := by
  decide

/-- C7 amended: persisting the same content twice yields at most one write;
the second persist never writes and leaves the file unchanged, and the
first writes exactly when the content differs from the existing file
content (an absent file reading as empty). -/
theorem save_second_write_noop (content : String) (existing : Option String) :
    (save_result content ((save_result content existing false).2) false).1 = false ∧
    (save_result content ((save_result content existing false).2) false).2 =
      (save_result content existing false).2 ∧
    ((save_result content existing false).1 = true ↔ content ≠ existing.getD "") := by
  unfold save_result
  by_cases he : content = existing.getD ""
  · simp [he]
  · simp [he]

/-- C2 counterexample: with a good fetch but an I/O failure inside the save
step, main still returns True (exit code 0), the verify step still runs,
and the old file content is left in place: the caught IOError is neither
propagated to the exit code nor does it abort the rest of the pipeline. -/
theorem save_ioerror_exit_zero :
    (runMain ⟨some "ss://a", some "old", true, false⟩).exitZero = true ∧
    (runMain ⟨some "ss://a", some "old", true, false⟩).verifyRan = true ∧
    (runMain ⟨some "ss://a", some "old", true, false⟩).finalFile = some "old" := by
  decide

/-- C2 amended: the run returns True (exit code 0) exactly when the fetch
produced a non-empty body and the filter produced a non-empty result,
independently of any save or verify file failure, and the save and verify
steps run exactly in that case: a caught save I/O error neither changes the
exit code nor aborts the remainder of the pipeline. -/
theorem exit_code_characterization (inp : RunInput) :
    ((runMain inp).exitZero = true ↔
      (inp.fetchResult.getD "" ≠ "" ∧
        (filter_nodes (inp.fetchResult.getD "")).getD "" ≠ "")) ∧
    (runMain inp).saveRan = (runMain inp).exitZero ∧
    (runMain inp).verifyRan = (runMain inp).exitZero := by
  obtain ⟨fr, ef, sf, vf⟩ := inp
  cases fr with
  | none => simp [runMain]
  | some raw =>
    by_cases hr : raw = ""
    · simp [runMain, hr, filter_nodes]
    · by_cases hj : joinLines (filterLines (splitlines raw)).1 = ""
      · simp [runMain, filter_nodes, hr, hj]
      · simp [runMain, filter_nodes, hr, hj]

/-- C4: whenever the verify step reports failure, main still returns True
(exit code 0) and the output file stays exactly what the save step left,
so the late verification neither prevents nor undoes persistence. -/
theorem verify_failure_warning_only (inp : RunInput)
    (h : (runMain inp).verifyPassed = some false) :
    (runMain inp).exitZero = true ∧
    (runMain inp).finalFile =
      (save_result ((filter_nodes (inp.fetchResult.getD "")).getD "")
        inp.existingFile inp.saveFails).2 := by
  obtain ⟨fr, ef, sf, vf⟩ := inp
  cases fr with
  | none => simp [runMain] at h
  | some raw =>
    by_cases hr : raw = ""
    · simp [runMain, hr] at h
    · by_cases hj : joinLines (filterLines (splitlines raw)).1 = ""
      · simp [runMain, filter_nodes, hr, hj] at h
      · simp [runMain, filter_nodes, hr, hj]

/-- Witness for C4: a failed save leaves a denied line in the old file, the
verifier reports failure, and the run still exits successfully. -/
theorem verify_failure_warning_only_witness :
    (runMain ⟨some "ss://a", some "http=x", true, false⟩).verifyPassed = some false ∧
    (runMain ⟨some "ss://a", some "http=x", true, false⟩).exitZero = true := by
  refine ⟨by decide, ?_⟩
  exact (verify_failure_warning_only ⟨some "ss://a", some "http=x", true, false⟩ (by decide)).1

/-- C9: on readable content the verifier passes exactly when every line is
blank or free of the denied markers, and it fails exactly when its list of
offending lines is non-empty; it only reports, computing no repaired
content. -/
theorem verify_result_characterization (content : String) :
    (verify_result (some content) false =
      (splitlines content).all (fun line => isBlankLine line || ! deniedLine line)) ∧
    (verify_result (some content) false = false ↔ badLines content ≠ []) := by
  constructor
  · unfold verify_result badLines
    rw [if_neg Bool.false_ne_true, Bool.eq_iff_iff]
    simp only [List.isEmpty_iff, List.filter_eq_nil_iff, List.all_eq_true]
    constructor
    · intro hnone line hline
      have hnb := hnone line hline
      rw [verifyBad_eq] at hnb
      cases hb : isBlankLine line <;> cases hd : deniedLine line <;>
        simp_all
    · intro hall line hline
      have hk := hall line hline
      rw [verifyBad_eq]
      cases hb : isBlankLine line <;> cases hd : deniedLine line <;>
        simp_all
  · unfold verify_result
    rw [if_neg Bool.false_ne_true]
    cases hbl : badLines content <;> simp [hbl]
